import Mathlib

/-!
Verification of the vincent news-ingestion pipeline

Shallow embedding, in Lean 4, of the hybrid content-storage and deduplicated
ingestion pipeline of the `vincent` repository, together with proofs about it.

The embedded code comes from:
* `src/api/news_scraper.py` — `parse_thai_date`, `should_store_in_blob`,
  `create_content_preview`, `fetch_news_as_posts`;
* `src/api/scheduled_news_fetcher.py` — `check_article_exists`,
  `save_articles_to_db`, `fetch_and_save_dbd_news`;
* `src/api/function_app.py` — the blob-rehydration loop of the `posts` GET
  handler.

Modelling conventions:
* Python strings are `String` (a sequence of unicode code points, so Python
  `len`/slicing corresponds to `String.data` list length/`take`/`drop`);
* external I/O (Cosmos queries, blob reads/writes, the AI tagger, wall-clock
  timestamps) is passed in explicitly as function-valued parameters, with
  `Option` results: `none` models a raised-and-caught exception or a `None`
  return, exactly at the points where the Python code catches;
* Python float arithmetic appears in exactly two places
  (`should_store_in_blob`: `len/1024 >= 5`, and `create_content_preview`:
  `last_space > max_length * 0.8`).  Both are modelled by the corresponding
  exact rational comparisons; the comment at each definition justifies that
  the IEEE-754 double computation agrees with the exact one on the whole
  domain that matters.
-/

namespace Vincent

/-! ## Python string primitives -/

/-- Helper for `pySplit`: walks the characters accumulating the current word
(in reverse). -/
def pySplitAux : List Char → List Char → List String
  | [], acc => if acc = [] then [] else [String.mk acc.reverse]
  | c :: rest, acc =>
    if c.isWhitespace then
      if acc = [] then pySplitAux rest []
      else String.mk acc.reverse :: pySplitAux rest []
    else pySplitAux rest (c :: acc)

/-- Python `str.split()` with no separator: split on runs of whitespace,
dropping empty pieces. -/
def pySplit (s : String) : List String :=
  pySplitAux s.data []

/-- Python `str.strip()`: remove leading and trailing whitespace. -/
def pyStrip (s : String) : String :=
  String.mk (((s.data.dropWhile Char.isWhitespace).reverse.dropWhile
    Char.isWhitespace).reverse)

/-- Python `c in s` for a single character `c`. -/
def pyContains (s : String) (c : Char) : Bool :=
  s.data.any (fun a => a = c)

/-- Python `int(s)`: optional surrounding whitespace, optional sign, then one
or more decimal digits; anything else raises `ValueError` (modelled as
`none`).  (Python also accepts `_` digit separators, which never occur in
this code's inputs.) -/
def pyInt (s : String) : Option Int :=
  let t := pyStrip s
  let signDigits : Int × List Char :=
    match t.data with
    | '-' :: rest => (-1, rest)
    | '+' :: rest => (1, rest)
    | l => (1, l)
  if signDigits.2 ≠ [] ∧ signDigits.2.all Char.isDigit then
    some (signDigits.1 *
      (signDigits.2.foldl (fun acc c => acc * 10 + (c.toNat - 48)) 0 : Nat))
  else
    none

/-- Index of the last occurrence of `c` in `l`, or `-1` when absent:
Python `str.rfind`. -/
def pyRfind (l : List Char) (c : Char) : Int :=
  match l with
  | [] => -1
  | a :: rest =>
    let r := pyRfind rest c
    if 0 ≤ r then r + 1
    else if a = c then 0 else -1

/-! ## Date handling (`parse_thai_date`, news_scraper.py lines 30-87) -/

/-- The `thai_months` dict of `parse_thai_date`. -/
def thai_months : List (String × Nat) :=
  [("มกราคม", 1), ("กุมภาพันธ์", 2), ("มีนาคม", 3), ("เมษายน", 4),
   ("พฤษภาคม", 5), ("มิถุนายน", 6), ("กรกฎาคม", 7), ("สิงหาคม", 8),
   ("กันยายน", 9), ("ตุลาคม", 10), ("พฤศจิกายน", 11), ("ธันวาคม", 12)]

/-- The `english_months` dict of `parse_thai_date`. -/
def english_months : List (String × Nat) :=
  [("January", 1), ("February", 2), ("March", 3), ("April", 4),
   ("May", 5), ("June", 6), ("July", 7), ("August", 8),
   ("September", 9), ("October", 10), ("November", 11), ("December", 12)]

/-- Dict lookup by exact string key. -/
def lookupMonth (ms : List (String × Nat)) (name : String) : Option Nat :=
  (ms.find? (fun p => p.1 = name)).map Prod.snd

/-- Gregorian leap year, as used by Python `datetime`. -/
def isLeapYear (y : Int) : Bool :=
  (y % 4 == 0 && y % 100 != 0) || y % 400 == 0

/-- Days in a month, as validated by the `datetime` constructor. -/
def daysInMonth (y : Int) (m : Nat) : Nat :=
  if m = 2 then (if isLeapYear y then 29 else 28)
  else if m = 4 ∨ m = 6 ∨ m = 9 ∨ m = 11 then 30
  else 31

/-- Validity check of `datetime(year, month, day)` (MINYEAR = 1,
MAXYEAR = 9999); an invalid triple raises `ValueError`. -/
def validDate (y : Int) (m : Nat) (d : Int) : Bool :=
  1 ≤ y && y ≤ 9999 && 1 ≤ m && m ≤ 12 && 1 ≤ d && d ≤ (daysInMonth y m : Int)

/-- Zero-pad the decimal representation of `n` to `width` digits. -/
def padNum (width : Nat) (n : Nat) : String :=
  let s := toString n
  String.mk (List.replicate (width - s.data.length) '0') ++ s

/-- `datetime(y, m, d).isoformat() + 'Z'` for a midnight datetime:
`"YYYY-MM-DDT00:00:00Z"`. -/
def isoDateZ (y : Nat) (m : Nat) (d : Nat) : String :=
  padNum 4 y ++ "-" ++ padNum 2 m ++ "-" ++ padNum 2 d ++ "T00:00:00Z"

/-- The month-name part of `strptime(s, '%B %d, %Y')`: case-insensitive full
English month name at the start of the input (no full month name is a prefix
of another, so alternation order is irrelevant). -/
def matchMonthCI (l : List Char) : Option (Nat × List Char) :=
  (english_months.find? (fun p =>
      (l.take p.1.data.length).map Char.toLower = p.1.data.map Char.toLower)).map
    (fun p => (p.2, l.drop p.1.data.length))

/-- The `%d` part of `strptime`: regex `(3[01]|[12]\d|0[1-9]|[1-9])`, i.e. a
two-digit day 01–31, else one nonzero digit. -/
def matchDay : List Char → Option (Nat × List Char)
  | c1 :: c2 :: rest =>
    if c1.isDigit && c2.isDigit &&
        (1 ≤ (c1.toNat - 48) * 10 + (c2.toNat - 48) &&
         (c1.toNat - 48) * 10 + (c2.toNat - 48) ≤ 31) then
      some ((c1.toNat - 48) * 10 + (c2.toNat - 48), rest)
    else if c1.isDigit && c1 ≠ '0' then
      some (c1.toNat - 48, c2 :: rest)
    else none
  | [c1] =>
    if c1.isDigit && c1 ≠ '0' then some (c1.toNat - 48, []) else none
  | [] => none

/-- One-or-more whitespace (a literal space in a `strptime` format compiles
to the regex `\s+`). -/
def matchWs1 : List Char → Option (List Char)
  | c :: rest => if c.isWhitespace then some (rest.dropWhile Char.isWhitespace) else none
  | [] => none

/-- The `%Y` part of `strptime`: exactly four decimal digits. -/
def matchYear4 (l : List Char) : Option (Nat × List Char) :=
  match l with
  | a :: b :: c :: d :: rest =>
    if a.isDigit && b.isDigit && c.isDigit && d.isDigit then
      some ((a.toNat - 48) * 1000 + (b.toNat - 48) * 100 +
            (c.toNat - 48) * 10 + (d.toNat - 48), rest)
    else none
  | _ => none

/-- Model of `datetime.strptime(s, '%B %d, %Y')` followed by
`.isoformat() + 'Z'`: month name, whitespace, day, comma, whitespace,
four-digit year, end of input; the resulting date must be constructible
(otherwise `strptime` raises, modelled as `none`). -/
def strptimeBDY (s : String) : Option String := do
  let (m, r1) ← matchMonthCI s.data
  let r2 ← matchWs1 r1
  let (d, r3) ← matchDay r2
  let r4 ← match r3 with
           | ',' :: t => some t
           | _ => none
  let r5 ← matchWs1 r4
  let (y, r6) ← matchYear4 r5
  if r6 = [] ∧ validDate (y : Int) m (d : Int) then
    some (isoDateZ y m d)
  else none

/-- `parse_thai_date` (news_scraper.py lines 30-87).  `now` is the value of
`datetime.now(timezone.utc).isoformat()` used by the fallback paths; any
exception inside the `try` block falls through to the `except` handler which
returns `now`.

In the three-part branch the code runs `day = int(parts[0])`,
`year = int(parts[2])`, a month-dict lookup (Thai months shift the Buddhist
year by 543 when it exceeds 2500), then `datetime(year, month, day)`; every
failure raises, so the whole branch is an `Option` pipeline defaulting to
`now`.  The `','`-branch is reached only when the split does not have exactly
three parts. -/
def parse_thai_date (thai_date : String) (now : String) : String :=
  if thai_date = "" then now
  else
    let attempt : Option String :=
      match pySplit (pyStrip thai_date) with
      | [p0, p1, p2] => do
        let day ← pyInt p0
        let year0 ← pyInt p2
        let my ←
          match lookupMonth thai_months p1 with
          | some m => some (m, if 2500 < year0 then year0 - 543 else year0)
          | none =>
            match lookupMonth english_months p1 with
            | some m => some (m, year0)
            | none => none
        if validDate my.2 my.1 day then
          some (isoDateZ my.2.toNat my.1 day.toNat)
        else none
      | _ =>
        if pyContains thai_date ',' then strptimeBDY thai_date
        else some now
    attempt.getD now

/-! ## Storage tier decision (`should_store_in_blob`, news_scraper.py
lines 174-186) -/

/-- `should_store_in_blob(content, threshold_kb=5)`; every call site uses the
default threshold.  The Python code computes
`len(content.encode('utf-8')) / 1024 >= 5` in IEEE-754 double arithmetic;
since the divisor is a power of two and byte sizes are far below `2^53`, the
float quotient is exact, so the comparison equals the exact rational one
modelled here. -/
def should_store_in_blob (content : String) : Bool :=
  decide ((5 : ℚ) ≤ (content.utf8ByteSize : ℚ) / 1024)

/-! ## Content preview (`create_content_preview`, news_scraper.py
lines 189-210) -/

/-- `create_content_preview(content, max_length=500)`.  Python `len` and
slicing act on code points, i.e. on `String.data`.  The cut condition
`last_space > max_length * 0.8` multiplies by the double nearest to 4/5,
which is `0.8·(1 + 2⁻⁵⁴)`; the product `max_length * 0.8` rounds back to
exactly `0.8·max_length` whenever `0.8·max_length` is representable, and is
within `2⁻⁵³·max_length` of it otherwise, so for every length that could
arise from a real string the float comparison against the integer
`last_space` agrees with the exact comparison `5·last_space > 4·max_length`
used here. -/
def create_content_preview (content : String) (max_length : Nat) : String :=
  if content.data.length ≤ max_length then content
  else
    let preview := content.data.take max_length
    let last_space := pyRfind preview ' '
    let cut :=
      if 4 * (max_length : Int) < 5 * last_space then
        preview.take last_space.toNat
      else preview
    String.mk (cut ++ "...".data)

/-! ## Data model

A raw article as produced by `scrape_dbd_news` and consumed by both
`save_articles_to_db` and `fetch_news_as_posts`.  Fields read through
`article.get(...)` in the Python code are `Option`-valued here; fields read
by direct subscripting (whose absence would raise `KeyError`) are plain. -/

/-- One scraped article dict (news_scraper.py lines 279-288). -/
structure Article where
  title : String
  content : String
  link : String
  source : String
  date : Option String
  created_at : Option String
  image_url : Option String
  slug : Option String
deriving DecidableEq, Repr

/-- The post dict persisted by `save_articles_to_db`
(scheduled_news_fetcher.py lines 142-165).  The random `uuid4` `id` field is
opaque, never read by any embedded code, and not modelled. -/
structure PostData where
  title : String
  content : String
  content_storage : String
  content_blob_url : Option String
  author : String
  author_avatar : String
  thumbnail_url : String
  video_url : Option String
  source_url : String
  source : String
  embed_type : String
  iframe_allowed : Bool
  post_type : String
  tags : List String
  reading_time_minutes : Nat
  created_at : String
  updated_at : String
  auto_fetched : Bool
  fetch_date : String
  fetch_order : Nat
  original_date_display : String
deriving DecidableEq, Inhabited, Repr

/-- The `stats` counters of `save_articles_to_db`. -/
structure Stats where
  saved : Nat
  skipped : Nat
  errors : Nat
deriving DecidableEq, Repr

/-- The Cosmos `posts` container: the persisted record set, in insertion
order. -/
structure DB where
  posts : List PostData
deriving DecidableEq, Repr

/-- The external collaborators of one ingestion run, each of which may fail
independently:
* `containerOk`: whether `get_cosmos_container` yields a container;
* `maxQueryOk`: whether the `MAX(c.fetch_order)` query succeeds;
* `existsQueryOk u`: whether the dedup query for `source_url = u` succeeds
  (the code catches a failure inside `check_article_exists`);
* `blobWrite content name`: `store_content_in_blob`, `none` on any failure
  (that function catches every exception and returns `None`);
* `insertOk p`: whether `container.create_item` succeeds for post `p`. -/
structure Env where
  containerOk : Bool
  maxQueryOk : Bool
  existsQueryOk : String → Bool
  blobWrite : String → String → Option String
  insertOk : PostData → Bool

/-! ## Dedup ledger (`check_article_exists`, scheduled_news_fetcher.py
lines 45-60) -/

/-- `check_article_exists`: run the `source_url` lookup query and test
`len(items) > 0`; if the query raises, the handler logs and returns
`False`. -/
def check_article_exists (env : Env) (db : DB) (source_url : String) : Bool :=
  if env.existsQueryOk source_url then
    decide (0 < (db.posts.filter (fun p => decide (p.source_url = source_url))).length)
  else false

/-! ## Ingestion (`save_articles_to_db`, scheduled_news_fetcher.py
lines 63-176) -/

/-- The `MAX(c.fetch_order) ... WHERE c.auto_fetched = true` query with the
code's fallbacks: a failed query, and a `null` result (empty record set),
both give 0.  Folding `Nat.max` from 0 over the auto-fetched records'
`fetch_order`s is exactly that function. -/
def currentMaxOrder (env : Env) (db : DB) : Nat :=
  if env.maxQueryOk then
    ((db.posts.filter (fun p => p.auto_fetched)).map (fun p => p.fetch_order)).foldl
      Nat.max 0
  else 0

/-- `full_content = article['content'] + f"\n\nอ่านเพิ่มเติม: {source_url}"`
(scheduled_news_fetcher.py line 107, and the identical line 411 of
news_scraper.py with `article['link']`). -/
def fullContentOf (article : Article) : String :=
  article.content ++ "\n\nอ่านเพิ่มเติม: " ++ article.link

/-- The post dict built for one new article (scheduled_news_fetcher.py
lines 106-165): tier decision, blob write with preview-on-success and
preview-on-failure, reading time, and `fetch_order = current_max_order +
idx + 1`.  `stamp` is the `%Y%m%d%H%M%S` timestamp interpolated into the
blob name and `now` the ISO timestamp used for `updated_at`/`fetch_date`. -/
def buildPost (env : Env) (base : Nat) (stamp now : String) (tags : List String)
    (idx : Nat) (article : Article) : PostData :=
  let full_content := fullContentOf article
  let stored : String × String × Option String :=
    if should_store_in_blob full_content then
      let blob_name :=
        "articles/dbd-" ++ article.slug.getD "unknown" ++ "-" ++ stamp ++ ".txt"
      match env.blobWrite full_content blob_name with
      | some url => (create_content_preview full_content 500, "blob", some url)
      | none => (create_content_preview full_content 500, "cosmos", none)
    else (full_content, "cosmos", none)
  let word_count := (pySplit full_content).length
  { title := String.mk (article.title.data.take 500)
    content := stored.1
    content_storage := stored.2.1
    content_blob_url := stored.2.2
    author := article.source
    author_avatar := "https://www.dbd.go.th/images/Logo100.png"
    thumbnail_url := article.image_url.getD ""
    video_url := none
    source_url := article.link
    source := "dbd.go.th"
    embed_type := "preview"
    iframe_allowed := false
    post_type := "shared"
    tags := tags
    reading_time_minutes := Nat.max 1 (word_count / 200)
    created_at := article.created_at.getD now
    updated_at := now
    auto_fetched := true
    fetch_date := now
    fetch_order := base + idx + 1
    original_date_display := article.date.getD "" }

/-- The `for idx, article in enumerate(articles)` loop of
`save_articles_to_db`: dedup check (skip), build, insert (a failed insert
counts an error and the loop continues).  `idx` advances for every article,
skipped or errored ones included. -/
def saveLoop (env : Env) (base : Nat) (stamp now : String) (tags : List String) :
    DB → Stats → Nat → List Article → Stats × DB
  | db, stats, _, [] => (stats, db)
  | db, stats, idx, article :: rest =>
    if check_article_exists env db article.link then
      saveLoop env base stamp now tags db
        { stats with skipped := stats.skipped + 1 } (idx + 1) rest
    else
      let post := buildPost env base stamp now tags idx article
      if env.insertOk post then
        saveLoop env base stamp now tags ⟨db.posts ++ [post]⟩
          { stats with saved := stats.saved + 1 } (idx + 1) rest
      else
        saveLoop env base stamp now tags db
          { stats with errors := stats.errors + 1 } (idx + 1) rest

/-- `save_articles_to_db(articles, tags)`: bail out with zero counters when
the container is unavailable, read the fetch-order base, then run the
per-article loop.  (The Python `tags=None` default, replaced by the base tag
list, is applied by the caller in this model; `fetch_and_save_dbd_news`
always passes explicit tags.) -/
def save_articles_to_db (env : Env) (stamp now : String) (articles : List Article)
    (tags : List String) (db : DB) : Stats × DB :=
  if env.containerOk then
    saveLoop env (currentMaxOrder env db) stamp now tags db ⟨0, 0, 0⟩ 0 articles
  else (⟨0, 0, 0⟩, db)

/-! ## Trigger (`fetch_and_save_dbd_news`, scheduled_news_fetcher.py
lines 179-229) -/

/-- The base tag list of `fetch_and_save_dbd_news` (and the
`save_articles_to_db` default). -/
def scheduledBaseTags : List String :=
  ["DBD", "กรมพัฒนาธุรกิจการค้า", "ข่าวประชาสัมพันธ์"]

/-- The result dict of `fetch_and_save_dbd_news`. -/
structure FetchResult where
  success : Bool
  message : String
  stats : Stats
  timestamp : Option String
deriving DecidableEq, Repr

/-- `fetch_and_save_dbd_news(limit, keyword)`.  `scraped` is what
`scrape_dbd_news` returned (that function catches every exception and
returns `[]`, so the fetch itself never raises).  An empty fetch returns
`success: False` with message `"No articles fetched"`; otherwise the keyword
(when non-empty, i.e. truthy) is appended to the base tags and the batch is
saved. -/
def fetch_and_save_dbd_news (env : Env) (stamp now : String)
    (scraped : List Article) (keyword : String) (db : DB) : FetchResult × DB :=
  if scraped = [] then
    ({ success := false, message := "No articles fetched",
       stats := ⟨0, 0, 0⟩, timestamp := none }, db)
  else
    let tags := scheduledBaseTags ++ (if keyword ≠ "" then [keyword] else [])
    let sd := save_articles_to_db env stamp now scraped tags db
    ({ success := true,
       message := "Processed " ++ toString scraped.length ++ " articles",
       stats := sd.1, timestamp := some now }, sd.2)

/-! ## Scraper-side post construction (`fetch_news_as_posts`,
news_scraper.py lines 374-468) -/

/-- The post dict built by `fetch_news_as_posts` (fields of the three
branches at lines 421-463; `content_blob_url` is present only in the
blob-success branch, modelled as `none` elsewhere). -/
structure NewsPost where
  title : String
  content : String
  content_storage : String
  content_blob_url : Option String
  author : String
  author_avatar : String
  thumbnail_url : String
  tags : List String
  source_url : String
  is_external : Bool
  created_at : Option String
deriving DecidableEq, Repr

/-- The base tag list of `fetch_news_as_posts` (news_scraper.py line 390),
with the keyword appended when it is truthy and not already present
(line 393). -/
def scraperBaseTags (keyword : String) : List String :=
  let tags := ["ข่าวประชาสัมพันธ์", "DBD", "กรมพัฒนาธุรกิจการค้า"]
  if keyword ≠ "" ∧ keyword ∉ tags then tags ++ [keyword] else tags

/-- `for tag in ai_tags: if tag not in tags: tags.append(tag)` -/
def appendNewTags (tags : List String) (ai_tags : List String) : List String :=
  ai_tags.foldl (fun ts t => if t ∈ ts then ts else ts ++ [t]) tags

/-- The body of the `fetch_news_as_posts` loop.  `fcVar` is the state of the
Python local variable `full_content`: it is only assigned at line 411,
*after* the `generate_ai_tags(full_content, ...)` call at line 398, so on
the first iteration that call raises `NameError` (caught at line 407, base
tags kept) and on every later iteration it is passed the *previous*
article's full content.  `aiTagger prev title` is `generate_ai_tags`;
`none` models a raised exception, `some []` an empty (falsy) tag list. -/
def fetchPostsLoop (aiTagger : String → String → Option (List String))
    (writeBlob : String → String → Option String) (stamp : String)
    (keyword : String) : Option String → List Article → List NewsPost
  | _, [] => []
  | fcVar, article :: rest =>
    let tags0 := scraperBaseTags keyword
    let tags :=
      match fcVar with
      | none => tags0
      | some prev =>
        match aiTagger prev article.title with
        | none => tags0
        | some ai_tags => if ai_tags ≠ [] then appendNewTags tags0 ai_tags else tags0
    let full_content := fullContentOf article
    let post : NewsPost :=
      if should_store_in_blob full_content then
        let blob_name :=
          "articles/dbd-" ++ article.slug.getD "unknown" ++ "-" ++ stamp ++ ".txt"
        match writeBlob full_content blob_name with
        | some url =>
          { title := article.title
            content := create_content_preview full_content 500
            content_storage := "blob"
            content_blob_url := some url
            author := "กรมพัฒนาธุรกิจการค้า (DBD)"
            author_avatar := "https://www.dbd.go.th/images/Logo100.png"
            thumbnail_url := article.image_url.getD ""
            tags := tags
            source_url := article.link
            is_external := true
            created_at := article.created_at }
        | none =>
          { title := article.title
            content := full_content
            content_storage := "cosmos"
            content_blob_url := none
            author := "กรมพัฒนาธุรกิจการค้า (DBD)"
            author_avatar := "https://www.dbd.go.th/images/Logo100.png"
            thumbnail_url := article.image_url.getD ""
            tags := tags
            source_url := article.link
            is_external := true
            created_at := article.created_at }
      else
        { title := article.title
          content := full_content
          content_storage := "cosmos"
          content_blob_url := none
          author := "กรมพัฒนาธุรกิจการค้า (DBD)"
          author_avatar := "https://www.dbd.go.th/images/Logo100.png"
          thumbnail_url := article.image_url.getD ""
          tags := tags
          source_url := article.link
          is_external := true
          created_at := article.created_at }
    post :: fetchPostsLoop aiTagger writeBlob stamp keyword (some full_content) rest

/-- `fetch_news_as_posts(limit, keyword)`: `news_articles` is what
`scrape_dbd_news(limit, keyword)` returned; the loop starts with the local
`full_content` unbound. -/
def fetch_news_as_posts (aiTagger : String → String → Option (List String))
    (writeBlob : String → String → Option String) (stamp : String)
    (keyword : String) (news_articles : List Article) : List NewsPost :=
  fetchPostsLoop aiTagger writeBlob stamp keyword none news_articles

/-! ## Read-side rehydration (function_app.py lines 576-587, inside the
`posts` GET handler) -/

/-- The rehydration loop: for each fetched post with
`content_storage == 'blob'` and a truthy `content_blob_url`, call
`get_content_from_blob` (`readBlob`; that function catches every exception
and returns `None` on failure) and overwrite `content` only when the result
is truthy (non-`None` and non-empty).  The surrounding handler sorts the
items by `created_at` first; this models exactly the per-item loop. -/
def rehydrate_posts (readBlob : String → Option String) (items : List PostData) :
    List PostData :=
  items.map fun post =>
    if post.content_storage = "blob" ∧ post.content_blob_url.getD "" ≠ "" then
      match readBlob (post.content_blob_url.getD "") with
      | some full_content =>
        if full_content ≠ "" then { post with content := full_content } else post
      | none => post
    else post

/-! ## Shared helper lemmas -/

/-- The float comparison in `should_store_in_blob` is the integer threshold
test at 5 KiB = 5120 bytes. -/
theorem should_store_in_blob_eq (c : String) :
    should_store_in_blob c = decide (5120 ≤ c.utf8ByteSize) := by
  simp only [should_store_in_blob, decide_eq_decide]
  rw [le_div_iff₀ (by norm_num : (0 : ℚ) < 1024)]
  constructor
  · intro h
    exact_mod_cast h
  · intro h
    exact_mod_cast h

/-- UTF-8 size of a repeated character. -/
theorem utf8Len_replicate (n : Nat) (c : Char) :
    String.utf8Len (List.replicate n c) = n * c.utf8Size := by
  induction n with
  | zero => simp
  | succ k ih => simp [List.replicate_succ, ih, Nat.succ_mul]

/-- UTF-8 byte size is at most four bytes per code point. -/
theorem utf8Len_le_four_mul (l : List Char) : String.utf8Len l ≤ 4 * l.length := by
  induction l with
  | nil => simp
  | cons c cs ih =>
    have := Char.utf8Size_le_four c
    simp only [String.utf8Len_cons, List.length_cons]
    omega

/-- The initial value is at most the `Nat.max` fold over a list. -/
theorem foldl_max_init_le (l : List Nat) (i : Nat) : i ≤ l.foldl Nat.max i := by
  induction l generalizing i with
  | nil => exact Nat.le_refl i
  | cons b bs ih => exact le_trans (Nat.le_max_left i b) (ih (Nat.max i b))

/-- Every element of a list is at most the `Nat.max` fold over it. -/
theorem le_foldl_max (l : List Nat) (i : Nat) : ∀ a ∈ l, a ≤ l.foldl Nat.max i := by
  induction l generalizing i with
  | nil => intro a h; cases h
  | cons b bs ih =>
    intro a h
    rcases List.mem_cons.mp h with rfl | h
    · exact le_trans (Nat.le_max_right i a) (foldl_max_init_le bs (Nat.max i a))
    · exact ih (Nat.max i b) a h

/-- A `pyRfind` hit is an actual occurrence: the character at the returned
index is the sought one. -/
theorem pyRfind_get (l : List Char) (c : Char) (h : 0 ≤ pyRfind l c) :
    l[(pyRfind l c).toNat]? = some c := by
  induction l with
  | nil => simp [pyRfind] at h
  | cons a rest ih =>
    by_cases hr : 0 ≤ pyRfind rest c
    · have : pyRfind (a :: rest) c = pyRfind rest c + 1 := by
        simp [pyRfind, hr]
      rw [this]
      have h1 : (pyRfind rest c + 1).toNat = (pyRfind rest c).toNat + 1 := by omega
      rw [h1]
      simpa using ih hr
    · by_cases ha : a = c
      · have : pyRfind (a :: rest) c = 0 := by
          simp [pyRfind, hr, ha]
        rw [this]
        simp [ha]
      · have : pyRfind (a :: rest) c = -1 := by
          simp [pyRfind, hr, ha]
        rw [this] at h
        omega

/-- The preview never exceeds the requested length plus the three-character
ellipsis. -/
theorem create_content_preview_length_le (c : String) (N : Nat) :
    (create_content_preview c N).data.length ≤ N + 3 := by
  unfold create_content_preview
  by_cases h : c.data.length ≤ N
  · rw [if_pos h]
    omega
  · rw [if_neg h]
    show ((if 4 * (N : Int) < 5 * pyRfind (c.data.take N) ' ' then
        (c.data.take N).take (pyRfind (c.data.take N) ' ').toNat
      else c.data.take N) ++ "...".data).length ≤ N + 3
    have h3 : ("...".data).length = 3 := rfl
    by_cases hcut : 4 * (N : Int) < 5 * pyRfind (c.data.take N) ' '
    · rw [if_pos hcut]
      simp only [List.length_append, List.length_take, h3]
      omega
    · rw [if_neg hcut]
      simp only [List.length_append, List.length_take, h3]
      omega

/-- The new records appended by the save loop: each one is `buildPost` at
the batch position of its source article. -/
theorem saveLoop_posts_spec (env : Env) (base : Nat) (stamp now : String)
    (tags : List String) :
    ∀ (arts : List Article) (db : DB) (stats : Stats) (idx : Nat),
      ∃ new, (saveLoop env base stamp now tags db stats idx arts).2.posts =
          db.posts ++ new ∧
        ∀ p ∈ new, ∃ j a, arts[j]? = some a ∧
          p = buildPost env base stamp now tags (idx + j) a := by
  intro arts
  induction arts with
  | nil =>
    intro db stats idx
    exact ⟨[], by simp [saveLoop], by simp⟩
  | cons a rest ih =>
    intro db stats idx
    by_cases hex : check_article_exists env db a.link
    · obtain ⟨new, hposts, hmem⟩ := ih db
        { stats with skipped := stats.skipped + 1 } (idx + 1)
      refine ⟨new, ?_, ?_⟩
      · simpa [saveLoop, hex] using hposts
      · intro p hp
        obtain ⟨j, b, hj, hpe⟩ := hmem p hp
        exact ⟨j + 1, b, by simpa using hj,
          by rw [hpe, show idx + 1 + j = idx + (j + 1) from by omega]⟩
    · by_cases hins : env.insertOk (buildPost env base stamp now tags idx a)
      · obtain ⟨new, hposts, hmem⟩ := ih ⟨db.posts ++ [buildPost env base stamp now tags idx a]⟩
          { stats with saved := stats.saved + 1 } (idx + 1)
        refine ⟨buildPost env base stamp now tags idx a :: new, ?_, ?_⟩
        · simp only [saveLoop, hex, hins, if_true, if_false]
          simpa [List.append_assoc] using hposts
        · intro p hp
          rcases List.mem_cons.mp hp with rfl | hp
          · exact ⟨0, a, by simp, by simp⟩
          · obtain ⟨j, b, hj, hpe⟩ := hmem p hp
            exact ⟨j + 1, b, by simpa using hj,
              by rw [hpe, show idx + 1 + j = idx + (j + 1) from by omega]⟩
      · obtain ⟨new, hposts, hmem⟩ := ih db
          { stats with errors := stats.errors + 1 } (idx + 1)
        refine ⟨new, ?_, ?_⟩
        · simpa [saveLoop, hex, hins] using hposts
        · intro p hp
          obtain ⟨j, b, hj, hpe⟩ := hmem p hp
          exact ⟨j + 1, b, by simpa using hj,
            by rw [hpe, show idx + 1 + j = idx + (j + 1) from by omega]⟩

/-- The `fetch_order` field of a freshly built post. -/
theorem buildPost_fetch_order (env : Env) (base : Nat) (stamp now : String)
    (tags : List String) (idx : Nat) (a : Article) :
    (buildPost env base stamp now tags idx a).fetch_order = base + idx + 1 := rfl

/-- The `source_url` field of a freshly built post. -/
theorem buildPost_source_url (env : Env) (base : Nat) (stamp now : String)
    (tags : List String) (idx : Nat) (a : Article) :
    (buildPost env base stamp now tags idx a).source_url = a.link := rfl

/-- The `auto_fetched` field of a freshly built post. -/
theorem buildPost_auto_fetched (env : Env) (base : Nat) (stamp now : String)
    (tags : List String) (idx : Nat) (a : Article) :
    (buildPost env base stamp now tags idx a).auto_fetched = true := rfl

/-! ## Claims -/

/-- C7: the date normalizer accepts the Buddhist-calendar format
`"22 ตุลาคม 2568"` (year shifted by 543, giving 2025-10-22), but the
documented English `"Month Day, Year"` format falls through to the
wall-clock fallback: the three-space-separated-parts branch runs
`int("October")` first, which raises, and the outer handler returns `now`
— the dedicated `strptime('%B %d, %Y')` branch (which would have produced
the correct timestamp, third conjunct) is unreachable for such inputs. -/
theorem parse_thai_date_formats :
    (∀ now, parse_thai_date "22 ตุลาคม 2568" now = "2025-10-22T00:00:00Z") ∧
    (∀ now, parse_thai_date "October 22, 2025" now = now) ∧
    strptimeBDY "October 22, 2025" = some "2025-10-22T00:00:00Z" :=
  ⟨fun _ => rfl, fun _ => rfl, rfl⟩

/-- C8: the storage-tier decision is a deterministic pure function of the
UTF-8 byte length with fixed threshold 5 KiB: it equals the test
`5120 ≤ byte size`, so 5120 bytes goes to blob and 5119 bytes stays
inline. -/
theorem should_store_in_blob_boundary :
    (∀ c : String, should_store_in_blob c = decide (5120 ≤ c.utf8ByteSize)) ∧
    (∀ c : String, c.utf8ByteSize = 5120 → should_store_in_blob c = true) ∧
    (∀ c : String, c.utf8ByteSize = 5119 → should_store_in_blob c = false) := by
  refine ⟨should_store_in_blob_eq, ?_, ?_⟩
  · intro c h
    rw [should_store_in_blob_eq, h]
    decide
  · intro c h
    rw [should_store_in_blob_eq, h]
    decide

/-- Witness for C8 at concrete 5120- and 5119-byte contents. -/
theorem should_store_in_blob_boundary_witness :
    ((String.mk (List.replicate 5120 'a')).utf8ByteSize = 5120 ∧
      should_store_in_blob (String.mk (List.replicate 5120 'a')) = true) ∧
    ((String.mk (List.replicate 5119 'a')).utf8ByteSize = 5119 ∧
      should_store_in_blob (String.mk (List.replicate 5119 'a')) = false) := by
  have h1 : (String.mk (List.replicate 5120 'a')).utf8ByteSize = 5120 := by
    rw [String.utf8ByteSize_mk, utf8Len_replicate]
    decide
  have h2 : (String.mk (List.replicate 5119 'a')).utf8ByteSize = 5119 := by
    rw [String.utf8ByteSize_mk, utf8Len_replicate]
    decide
  exact ⟨⟨h1, should_store_in_blob_boundary.2.1 _ h1⟩,
         ⟨h2, should_store_in_blob_boundary.2.2 _ h2⟩⟩

/-- C9: the preview function is the identity when the content fits in
`N` code points; its output never exceeds `N` plus the three-character
ellipsis; and when truncation occurs the result is a prefix-cut of the
`N`-prefix followed by the ellipsis — cut at the last space of the
`N`-prefix (which really is a space) when that space lies past 80% of `N`,
and at `N` otherwise. -/
theorem create_content_preview_spec (content : String) (N : Nat) :
    (content.data.length ≤ N → create_content_preview content N = content) ∧
    (create_content_preview content N).data.length ≤ N + 3 ∧
    (N < content.data.length →
      ∃ cut : List Char, cut.length ≤ N ∧
        (create_content_preview content N).data = cut ++ "...".data ∧
        ((4 * (N : Int) < 5 * pyRfind (content.data.take N) ' ' ∧
            cut = (content.data.take N).take (pyRfind (content.data.take N) ' ').toNat ∧
            (content.data.take N)[(pyRfind (content.data.take N) ' ').toNat]? = some ' ') ∨
         (¬ 4 * (N : Int) < 5 * pyRfind (content.data.take N) ' ' ∧
            cut = content.data.take N))) := by
  refine ⟨?_, create_content_preview_length_le content N, ?_⟩
  · intro h
    unfold create_content_preview
    rw [if_pos h]
  · intro h
    have hnle : ¬ content.data.length ≤ N := by omega
    have hdata : (create_content_preview content N).data =
        (if 4 * (N : Int) < 5 * pyRfind (content.data.take N) ' ' then
            (content.data.take N).take (pyRfind (content.data.take N) ' ').toNat
          else content.data.take N) ++ "...".data := by
      unfold create_content_preview
      rw [if_neg hnle]
    by_cases hcut : 4 * (N : Int) < 5 * pyRfind (content.data.take N) ' '
    · refine ⟨(content.data.take N).take (pyRfind (content.data.take N) ' ').toNat,
        ?_, ?_, Or.inl ⟨hcut, rfl, ?_⟩⟩
      · simp only [List.length_take]
        omega
      · rw [hdata, if_pos hcut]
      · apply pyRfind_get
        omega
    · refine ⟨content.data.take N, ?_, ?_, Or.inr ⟨hcut, rfl⟩⟩
      · simp only [List.length_take]
        omega
      · rw [hdata, if_neg hcut]

/-- Witness for C9: a short content is returned unchanged; a longer content
is truncated at a word boundary with the ellipsis appended. -/
theorem create_content_preview_spec_witness :
    ("This is short content".data.length ≤ 500 ∧
      create_content_preview "This is short content" 500 = "This is short content") ∧
    ((30 : Nat) <
        "This is a very long sentence that should be cut at a word boundary.".data.length ∧
      ∃ cut : List Char, cut.length ≤ 30 ∧
        (create_content_preview
          "This is a very long sentence that should be cut at a word boundary." 30).data =
            cut ++ "...".data ∧
        ((4 * (30 : Int) < 5 * pyRfind
            ("This is a very long sentence that should be cut at a word boundary.".data.take 30) ' ' ∧
          cut = ("This is a very long sentence that should be cut at a word boundary.".data.take 30).take
              (pyRfind ("This is a very long sentence that should be cut at a word boundary.".data.take 30) ' ').toNat ∧
          ("This is a very long sentence that should be cut at a word boundary.".data.take 30)[(pyRfind
              ("This is a very long sentence that should be cut at a word boundary.".data.take 30) ' ').toNat]? =
            some ' ') ∨
         (¬ 4 * (30 : Int) < 5 * pyRfind
              ("This is a very long sentence that should be cut at a word boundary.".data.take 30) ' ' ∧
          cut = "This is a very long sentence that should be cut at a word boundary.".data.take 30))) :=
  ⟨⟨by decide, (create_content_preview_spec "This is short content" 500).1 (by decide)⟩,
   ⟨by decide, (create_content_preview_spec
      "This is a very long sentence that should be cut at a word boundary." 30).2.2 (by decide)⟩⟩

/-! ## Concrete fixtures for counterexamples and witnesses -/

/-- An environment in which every external dependency succeeds except blob
writes (which the small contents below never attempt anyway). -/
def okEnv : Env := ⟨true, true, fun _ => true, fun _ _ => none, fun _ => true⟩

/-- An environment whose dedup existence query always fails (raises). -/
def failQueryEnv : Env := ⟨true, true, fun _ => false, fun _ _ => none, fun _ => true⟩

/-- A small scraped article with source link `"u0"`. -/
def artU0 : Article := ⟨"A0", "c0", "u0", "S", none, none, none, none⟩

/-- A small scraped article with source link `"u1"`. -/
def artU1 : Article := ⟨"A1", "c1", "u1", "S", none, none, none, none⟩

/-- An article whose content alone is 5120 bytes of UTF-8, so its full
content exceeds the 5 KiB blob threshold. -/
def bigArticle : Article :=
  ⟨"Big", String.mk (List.replicate 5120 'a'), "uBig", "S", none, none, none, none⟩

/-- An already-persisted auto-fetched record for source `"u0"` with
`fetch_order` 7. -/
def oldPost : PostData :=
  { title := "old", content := "x", content_storage := "cosmos",
    content_blob_url := none, author := "S", author_avatar := "",
    thumbnail_url := "", video_url := none, source_url := "u0",
    source := "dbd.go.th", embed_type := "preview", iframe_allowed := false,
    post_type := "shared", tags := [], reading_time_minutes := 1,
    created_at := "", updated_at := "", auto_fetched := true,
    fetch_date := "", fetch_order := 7, original_date_display := "" }

/-- A store already holding `oldPost`. -/
def dbOld : DB := ⟨[oldPost]⟩

/-- UTF-8 byte size through the underlying character list. -/
theorem utf8ByteSize_eq_utf8Len (s : String) :
    s.utf8ByteSize = String.utf8Len s.data := by
  cases s
  rfl

/-- UTF-8 byte size is additive over string append. -/
theorem utf8ByteSize_append (s t : String) :
    (s ++ t).utf8ByteSize = s.utf8ByteSize + t.utf8ByteSize := by
  cases s with
  | mk a =>
    cases t with
    | mk b =>
      show (String.mk (a ++ b)).utf8ByteSize = _
      simp [String.utf8ByteSize_mk]

/-! ## Claim C1 -/

/-- C1: when every blob write fails, a new over-threshold article is still
persisted (not aborted) with non-blob storage and no blob URL — but its
stored `content` is the truncated `create_content_preview`, strictly shorter
than the full content, so the full text is lost, contradicting the claimed
"full, untruncated content". -/
theorem blob_failure_truncates_in_save_articles
    (env : Env) (stamp now : String) (tags : List String) (article : Article)
    (db : DB) (hc : env.containerOk = true)
    (hblob : ∀ content name, env.blobWrite content name = none)
    (hsize : 5120 ≤ (fullContentOf article).utf8ByteSize)
    (hnew : check_article_exists env db article.link = false)
    (hins : ∀ p, env.insertOk p = true) :
    ∃ p : PostData,
      (save_articles_to_db env stamp now [article] tags db).1 = ⟨1, 0, 0⟩ ∧
      (save_articles_to_db env stamp now [article] tags db).2.posts =
        db.posts ++ [p] ∧
      p.content_storage = "cosmos" ∧
      p.content_blob_url = none ∧
      p.content = create_content_preview (fullContentOf article) 500 ∧
      p.content ≠ fullContentOf article := by
  have hsib : should_store_in_blob (fullContentOf article) = true := by
    rw [should_store_in_blob_eq]
    exact decide_eq_true hsize
  have hrun : save_articles_to_db env stamp now [article] tags db =
      (⟨1, 0, 0⟩,
        ⟨db.posts ++ [buildPost env (currentMaxOrder env db) stamp now tags 0 article]⟩) := by
    simp [save_articles_to_db, hc, saveLoop, hnew, hins]
  have hcontent : (buildPost env (currentMaxOrder env db) stamp now tags 0 article).content =
      create_content_preview (fullContentOf article) 500 := by
    simp [buildPost, hsib, hblob]
  have hstorage : (buildPost env (currentMaxOrder env db) stamp now tags 0 article).content_storage =
      "cosmos" := by
    simp [buildPost, hsib, hblob]
  have hurl : (buildPost env (currentMaxOrder env db) stamp now tags 0 article).content_blob_url =
      none := by
    simp [buildPost, hsib, hblob]
  refine ⟨buildPost env (currentMaxOrder env db) stamp now tags 0 article,
    by rw [hrun], by rw [hrun], hstorage, hurl, hcontent, ?_⟩
  rw [hcontent]
  intro heq
  have hlen1 : (create_content_preview (fullContentOf article) 500).data.length ≤ 503 :=
    create_content_preview_length_le (fullContentOf article) 500
  have hlen2 : String.utf8Len (fullContentOf article).data ≤
      4 * (fullContentOf article).data.length :=
    utf8Len_le_four_mul (fullContentOf article).data
  have hlen3 : 5120 ≤ String.utf8Len (fullContentOf article).data := by
    rw [← utf8ByteSize_eq_utf8Len]
    exact hsize
  have hlen4 : (create_content_preview (fullContentOf article) 500).data.length =
      (fullContentOf article).data.length := by
    rw [heq]
  omega

/-- Witness for C1: concrete run on `bigArticle` against an empty store with
an always-failing blob store. -/
theorem blob_failure_truncates_in_save_articles_witness :
    5120 ≤ (fullContentOf bigArticle).utf8ByteSize ∧
    ∃ p : PostData,
      (save_articles_to_db okEnv "s" "n" [bigArticle] [] ⟨[]⟩).1 = ⟨1, 0, 0⟩ ∧
      (save_articles_to_db okEnv "s" "n" [bigArticle] [] ⟨[]⟩).2.posts =
        (⟨[]⟩ : DB).posts ++ [p] ∧
      p.content_storage = "cosmos" ∧
      p.content_blob_url = none ∧
      p.content = create_content_preview (fullContentOf bigArticle) 500 ∧
      p.content ≠ fullContentOf bigArticle := by
  have h2 : (bigArticle.content).utf8ByteSize = 5120 := by
    show (String.mk (List.replicate 5120 'a')).utf8ByteSize = 5120
    rw [String.utf8ByteSize_mk, utf8Len_replicate]
    decide
  have hsize : 5120 ≤ (fullContentOf bigArticle).utf8ByteSize := by
    have h1 : (fullContentOf bigArticle).utf8ByteSize =
        (bigArticle.content).utf8ByteSize +
          ("\n\nอ่านเพิ่มเติม: " : String).utf8ByteSize +
          (bigArticle.link).utf8ByteSize := by
      show ((bigArticle.content ++ "\n\nอ่านเพิ่มเติม: ") ++ bigArticle.link).utf8ByteSize = _
      rw [utf8ByteSize_append, utf8ByteSize_append]
    rw [h1, h2]
    omega
  exact ⟨hsize, blob_failure_truncates_in_save_articles okEnv "s" "n" [] bigArticle
    ⟨[]⟩ rfl (fun _ _ => rfl) hsize rfl (fun _ => rfl)⟩

/-! ## Claim C2 -/

/-- Counterexample to C2: with max persisted `fetch_order` 7 and a batch of
two articles whose first is a duplicate, the single new record (position 1
of the new-record subsequence, so the claim predicts `7 + 1 = 8`) receives
`fetch_order = 9`: the skipped duplicate consumed a position. -/
theorem fetch_order_skipped_consumes_position_cex :
    currentMaxOrder okEnv dbOld = 7 ∧
    (save_articles_to_db okEnv "s" "n" [artU0, artU1] [] dbOld).1 = ⟨1, 1, 0⟩ ∧
    ((save_articles_to_db okEnv "s" "n" [artU0, artU1] [] dbOld).2.posts.map
      (fun p => p.fetch_order)) = [7, 9] ∧
    (9 : Nat) ≠ 7 + 1 := by
  refine ⟨by decide, by decide, by decide, by decide⟩

/-- C2 amended: every record persisted by a run has
`fetch_order = (max fetch_order before the run) + idx + 1` where `idx` is its
article's 0-based position in the **full** fetched batch — skipped
duplicates and errored records do consume positions. -/
theorem fetch_order_full_batch_position (env : Env) (stamp now : String)
    (tags : List String) (articles : List Article) (db : DB) :
    ∃ new, (save_articles_to_db env stamp now articles tags db).2.posts =
        db.posts ++ new ∧
      ∀ p ∈ new, ∃ j a, articles[j]? = some a ∧ p.source_url = a.link ∧
        p.fetch_order = currentMaxOrder env db + j + 1 := by
  by_cases hc : env.containerOk
  · obtain ⟨new, h1, h2⟩ := saveLoop_posts_spec env (currentMaxOrder env db)
      stamp now tags articles db ⟨0, 0, 0⟩ 0
    refine ⟨new, by simpa [save_articles_to_db, hc] using h1, ?_⟩
    intro p hp
    obtain ⟨j, a, hj, hpe⟩ := h2 p hp
    refine ⟨j, a, hj, ?_, ?_⟩
    · rw [hpe, buildPost_source_url]
    · rw [hpe, buildPost_fetch_order]
      omega
  · refine ⟨[], ?_, by simp⟩
    simp [save_articles_to_db, hc]

/-- Witness for C2's amended statement at a concrete run. -/
theorem fetch_order_full_batch_position_witness :
    ∃ new, (save_articles_to_db okEnv "s" "n" [artU0, artU1] [] dbOld).2.posts =
        dbOld.posts ++ new ∧
      ∀ p ∈ new, ∃ j a, [artU0, artU1][j]? = some a ∧ p.source_url = a.link ∧
        p.fetch_order = currentMaxOrder okEnv dbOld + j + 1 :=
  fetch_order_full_batch_position okEnv "s" "n" [] [artU0, artU1] dbOld

/-! ## Claim C3 -/

/-- C3: for two serial runs A then B over the same store, with B's
max-fetch_order query succeeding, every record persisted by B has a strictly
greater `fetch_order` than every record persisted by A. -/
theorem fetch_order_monotonic_across_runs
    (envA envB : Env) (stampA nowA stampB nowB : String)
    (tagsA tagsB : List String) (articlesA articlesB : List Article) (db0 : DB)
    (hB : envB.maxQueryOk = true) :
    ∀ p ∈ ((save_articles_to_db envB stampB nowB articlesB tagsB
            (save_articles_to_db envA stampA nowA articlesA tagsA db0).2).2.posts.drop
          (save_articles_to_db envA stampA nowA articlesA tagsA db0).2.posts.length),
      ∀ q ∈ ((save_articles_to_db envA stampA nowA articlesA tagsA db0).2.posts.drop
          db0.posts.length),
        q.fetch_order < p.fetch_order := by
  intro p hp q hq
  set db1 := (save_articles_to_db envA stampA nowA articlesA tagsA db0).2 with hdb1
  -- every record persisted by A is auto-fetched and lives in db1
  have hqfacts : q ∈ db1.posts ∧ q.auto_fetched = true := by
    by_cases hcA : envA.containerOk
    · obtain ⟨newA, hA1, hA2⟩ := saveLoop_posts_spec envA (currentMaxOrder envA db0)
        stampA nowA tagsA articlesA db0 ⟨0, 0, 0⟩ 0
      have hposts : db1.posts = db0.posts ++ newA := by
        rw [hdb1]
        simpa [save_articles_to_db, hcA] using hA1
      have hqmem : q ∈ newA := by
        have := hq
        rw [hposts, List.drop_left] at this
        exact this
      obtain ⟨j, a, hj, hqe⟩ := hA2 q hqmem
      refine ⟨by rw [hposts]; exact List.mem_append_right _ hqmem, ?_⟩
      rw [hqe, buildPost_auto_fetched]
    · have hposts : db1.posts = db0.posts := by
        rw [hdb1]
        simp [save_articles_to_db, hcA]
      rw [hposts, List.drop_length] at hq
      cases hq
  -- hence A's fetch_order is at most B's base
  have hbase : q.fetch_order ≤ currentMaxOrder envB db1 := by
    unfold currentMaxOrder
    rw [if_pos hB]
    apply le_foldl_max
    exact List.mem_map_of_mem _ (List.mem_filter.mpr ⟨hqfacts.1, hqfacts.2⟩)
  -- every record persisted by B sits strictly above B's base
  by_cases hcB : envB.containerOk
  · obtain ⟨newB, hB1, hB2⟩ := saveLoop_posts_spec envB (currentMaxOrder envB db1)
      stampB nowB tagsB articlesB db1 ⟨0, 0, 0⟩ 0
    have hposts : (save_articles_to_db envB stampB nowB articlesB tagsB db1).2.posts =
        db1.posts ++ newB := by
      simpa [save_articles_to_db, hcB] using hB1
    have hpmem : p ∈ newB := by
      have := hp
      rw [hposts, List.drop_left] at this
      exact this
    obtain ⟨j, a, hj, hpe⟩ := hB2 p hpmem
    have : p.fetch_order = currentMaxOrder envB db1 + (0 + j) + 1 := by
      rw [hpe, buildPost_fetch_order]
    omega
  · have hposts : (save_articles_to_db envB stampB nowB articlesB tagsB db1).2.posts =
        db1.posts := by
      simp [save_articles_to_db, hcB]
    rw [hposts, List.drop_length] at hp
    cases hp

/-- A small scraped article with source link `"u2"`. -/
def artU2 : Article := ⟨"A2", "c2", "u2", "S", none, none, none, none⟩

/-- Witness for C3: two concrete serial runs — run A saves `artU1` (getting
`fetch_order` 8 on top of the stored maximum 7), run B saves `artU2` — and
the record persisted by B sorts strictly after the record persisted by A. -/
theorem fetch_order_monotonic_across_runs_witness :
    (buildPost okEnv (currentMaxOrder okEnv dbOld) "s1" "n1" [] 0 artU1).fetch_order <
      (buildPost okEnv (currentMaxOrder okEnv
          (save_articles_to_db okEnv "s1" "n1" [artU1] [] dbOld).2)
        "s2" "n2" [] 0 artU2).fetch_order := by
  have h := fetch_order_monotonic_across_runs okEnv okEnv "s1" "n1" "s2" "n2" [] []
    [artU1] [artU2] dbOld rfl
  apply h
  · have hB : ((save_articles_to_db okEnv "s2" "n2" [artU2] []
          (save_articles_to_db okEnv "s1" "n1" [artU1] [] dbOld).2).2.posts.drop
        (save_articles_to_db okEnv "s1" "n1" [artU1] [] dbOld).2.posts.length) =
        [buildPost okEnv (currentMaxOrder okEnv
            (save_articles_to_db okEnv "s1" "n1" [artU1] [] dbOld).2)
          "s2" "n2" [] 0 artU2] := rfl
    rw [hB]
    exact List.mem_singleton.mpr rfl
  · have hA : ((save_articles_to_db okEnv "s1" "n1" [artU1] [] dbOld).2.posts.drop
        dbOld.posts.length) =
        [buildPost okEnv (currentMaxOrder okEnv dbOld) "s1" "n1" [] 0 artU1] := rfl
    rw [hA]
    exact List.mem_singleton.mpr rfl

/-! ## Claim C5 -/

/-- Counterexample to C5: an empty extractor result makes
`fetch_and_save_dbd_news` report `success: false` (with zero counters), not
a successful zero-saved/zero-skipped run. -/
theorem empty_fetch_reports_failure_cex :
    (fetch_and_save_dbd_news okEnv "s" "n" [] "" ⟨[]⟩).1.success = false ∧
    (fetch_and_save_dbd_news okEnv "s" "n" [] "" ⟨[]⟩).1.message =
      "No articles fetched" ∧
    (fetch_and_save_dbd_news okEnv "s" "n" [] "" ⟨[]⟩).1.stats = ⟨0, 0, 0⟩ :=
  ⟨rfl, rfl, rfl⟩

/-- C5 amended: an empty fetch returns the failure-shaped result
`success: false` / `"No articles fetched"` / zero counters, while any
non-empty fetch returns `success: true` with the save-loop counters — the
empty fetch is precisely reported as a failed run, not a successful empty
one. -/
theorem fetch_and_save_empty_vs_nonempty (env : Env) (stamp now keyword : String)
    (db : DB) :
    (fetch_and_save_dbd_news env stamp now [] keyword db).1 =
      ⟨false, "No articles fetched", ⟨0, 0, 0⟩, none⟩ ∧
    ∀ a rest,
      (fetch_and_save_dbd_news env stamp now (a :: rest) keyword db).1.success = true ∧
      (fetch_and_save_dbd_news env stamp now (a :: rest) keyword db).1.stats =
        (save_articles_to_db env stamp now (a :: rest)
          (scheduledBaseTags ++ (if keyword ≠ "" then [keyword] else [])) db).1 :=
  ⟨rfl, fun _ _ => ⟨rfl, rfl⟩⟩

/-! ## Claim C6 -/

/-- Counterexample to C6: the dedup query for `artU0` fails, yet the run
reports `saved = 1, errors = 0` and inserts a second record with the same
`source_url` — the failure is swallowed as "does not exist", not surfaced as
an item-level error. -/
theorem dedup_query_failure_inserts_cex :
    (save_articles_to_db failQueryEnv "s" "n" [artU0] [] dbOld).1 = ⟨1, 0, 0⟩ ∧
    ((save_articles_to_db failQueryEnv "s" "n" [artU0] [] dbOld).2.posts.map
      (fun p => p.source_url)) = ["u0", "u0"] :=
  ⟨by decide, by decide⟩

/-- C6 amended: a failed dedup query is caught inside
`check_article_exists`, which returns `False` ("does not exist") even when a
matching record is present; the record is therefore built and inserted
(counted as saved when the insert succeeds, so it risks a duplicate), the
error counter is untouched, and the loop continues with the rest of the
batch from the updated store. -/
theorem dedup_query_failure_continues (env : Env) (stamp now : String)
    (tags : List String) (a : Article) (rest : List Article) (db : DB)
    (hq : env.existsQueryOk a.link = false) (hc : env.containerOk = true)
    (hins : env.insertOk (buildPost env (currentMaxOrder env db) stamp now tags 0 a)
      = true) :
    check_article_exists env db a.link = false ∧
    save_articles_to_db env stamp now (a :: rest) tags db =
      saveLoop env (currentMaxOrder env db) stamp now tags
        ⟨db.posts ++ [buildPost env (currentMaxOrder env db) stamp now tags 0 a]⟩
        ⟨1, 0, 0⟩ 1 rest := by
  have h1 : check_article_exists env db a.link = false := by
    simp [check_article_exists, hq]
  refine ⟨h1, ?_⟩
  simp [save_articles_to_db, hc, saveLoop, h1, hins]

/-- Witness for C6 at a concrete failing dedup query. -/
theorem dedup_query_failure_continues_witness :
    check_article_exists failQueryEnv dbOld artU0.link = false ∧
    save_articles_to_db failQueryEnv "s" "n" [artU0] [] dbOld =
      saveLoop failQueryEnv (currentMaxOrder failQueryEnv dbOld) "s" "n" []
        ⟨dbOld.posts ++
          [buildPost failQueryEnv (currentMaxOrder failQueryEnv dbOld) "s" "n" [] 0 artU0]⟩
        ⟨1, 0, 0⟩ 1 [] :=
  dedup_query_failure_continues failQueryEnv "s" "n" [] artU0 [] dbOld rfl rfl rfl

/-! ## Claim C4 -/

/-- A persisted blob-tier record whose stored content is the preview
`"preview"` and whose blob locator is `"u"`. -/
def blobPost : PostData :=
  { oldPost with
    content := "preview"
    content_storage := "blob"
    content_blob_url := some "u" }

/-- Counterexample to C4: a blob read that *succeeds* with empty content
(`some ""`) does not replace the record's content — the stored preview is
kept, because the code tests truthiness (`if full_content:`), so "replaced
whenever the read succeeds" is false. -/
theorem rehydrate_empty_read_keeps_preview_cex :
    ((fun _ => some "") : String → Option String) "u" = some "" ∧
    ((rehydrate_posts (fun _ => some "") [blobPost]).map (fun p => p.content)) =
      ["preview"] ∧
    ("preview" : String) ≠ "" :=
  ⟨rfl, by decide, by decide⟩

/-- C4 amended: rehydration never drops a record and never changes any field
except `content`; the content of a blob-tier record with a truthy locator is
replaced exactly when the read yields a *non-empty* text, and in every other
case (read failure, empty read, non-blob tier, absent locator) the stored
content is kept.  The loop is a total function, so no exception escapes and
the remaining records are always processed. -/
theorem rehydrate_posts_spec_amended (readBlob : String → Option String)
    (items : List PostData) :
    (rehydrate_posts readBlob items).length = items.length ∧
    ∀ (i : Nat) (p q : PostData), items[i]? = some p →
      (rehydrate_posts readBlob items)[i]? = some q →
      (q.content_storage = p.content_storage ∧
       q.content_blob_url = p.content_blob_url ∧
       q.source_url = p.source_url ∧ q.title = p.title ∧ q.tags = p.tags ∧
       q.created_at = p.created_at ∧ q.fetch_order = p.fetch_order) ∧
      ((p.content_storage = "blob" ∧ p.content_blob_url.getD "" ≠ "" ∧
          ∃ fc, readBlob (p.content_blob_url.getD "") = some fc ∧ fc ≠ "" ∧
            q.content = fc) ∨
        q.content = p.content) := by
  refine ⟨by simp [rehydrate_posts], ?_⟩
  intro i p q hp hq
  rw [rehydrate_posts, List.getElem?_map, hp, Option.map_some'] at hq
  have hq2 := (Option.some.injEq _ _).mp hq
  by_cases hcond : p.content_storage = "blob" ∧ p.content_blob_url.getD "" ≠ ""
  · rw [if_pos hcond] at hq2
    cases hread : readBlob (p.content_blob_url.getD "") with
    | some fc =>
      rw [hread] at hq2
      have hq3 : (if fc ≠ "" then { p with content := fc } else p) = q := hq2
      by_cases hfc : fc ≠ ""
      · rw [if_pos hfc] at hq3
        subst hq3
        exact ⟨⟨rfl, rfl, rfl, rfl, rfl, rfl, rfl⟩,
          Or.inl ⟨hcond.1, hcond.2, fc, rfl, hfc, rfl⟩⟩
      · rw [if_neg hfc] at hq3
        subst hq3
        exact ⟨⟨rfl, rfl, rfl, rfl, rfl, rfl, rfl⟩, Or.inr rfl⟩
    | none =>
      rw [hread] at hq2
      have hq3 : p = q := hq2
      subst hq3
      exact ⟨⟨rfl, rfl, rfl, rfl, rfl, rfl, rfl⟩, Or.inr rfl⟩
  · rw [if_neg hcond] at hq2
    subst hq2
    exact ⟨⟨rfl, rfl, rfl, rfl, rfl, rfl, rfl⟩, Or.inr rfl⟩

/-- Witness for C4 at one concrete blob-tier record whose read succeeds with
non-empty content. -/
theorem rehydrate_posts_spec_amended_witness :
    ∃ q : PostData, (rehydrate_posts (fun _ => some "full") [blobPost])[0]? = some q ∧
      ((q.content_storage = blobPost.content_storage ∧
        q.content_blob_url = blobPost.content_blob_url ∧
        q.source_url = blobPost.source_url ∧ q.title = blobPost.title ∧
        q.tags = blobPost.tags ∧ q.created_at = blobPost.created_at ∧
        q.fetch_order = blobPost.fetch_order) ∧
       ((blobPost.content_storage = "blob" ∧ blobPost.content_blob_url.getD "" ≠ "" ∧
           ∃ fc, (fun _ => some "full") (blobPost.content_blob_url.getD "") = some fc ∧
             fc ≠ "" ∧ q.content = fc) ∨
         q.content = blobPost.content)) :=
  ⟨{ blobPost with content := "full" }, by decide,
    (rehydrate_posts_spec_amended (fun _ => some "full") [blobPost]).2 0 blobPost
      { blobPost with content := "full" } (by decide) (by decide)⟩

/-! ## Claim C10 -/

/-- An AI tagger that returns `["AI"]` for any input without raising. -/
def aiTaggerAI : String → String → Option (List String) := fun _ _ => some ["AI"]

/-- Counterexample to C10: with a tagger that returns `["AI"]`, the second
post built by `fetch_news_as_posts` carries the AI tag (computed from the
*previous* article's full content, which the stale local `full_content`
still holds), so it is not the base tag list: the `NameError` only occurs on
the first iteration. -/
theorem ai_tags_previous_content_leaks_cex :
    ((fetch_news_as_posts aiTaggerAI (fun _ _ => none) "s" "" [artU0, artU1]).map
      (fun p => p.tags)) =
      [["ข่าวประชาสัมพันธ์", "DBD", "กรมพัฒนาธุรกิจการค้า"],
       ["ข่าวประชาสัมพันธ์", "DBD", "กรมพัฒนาธุรกิจการค้า", "AI"]] ∧
    (["ข่าวประชาสัมพันธ์", "DBD", "กรมพัฒนาธุรกิจการค้า", "AI"] ≠
      ["ข่าวประชาสัมพันธ์", "DBD", "กรมพัฒนาธุรกิจการค้า"]) := by
  constructor
  · have h0 : should_store_in_blob (fullContentOf artU0) = false := by
      rw [should_store_in_blob_eq]
      decide
    have h1 : should_store_in_blob (fullContentOf artU1) = false := by
      rw [should_store_in_blob_eq]
      decide
    simp [fetch_news_as_posts, fetchPostsLoop, h0, h1, aiTaggerAI, scraperBaseTags,
      appendNewTags]
  · decide

/-- C10 amended: the *first* post of every batch carries exactly the base
tag list (plus the keyword when non-empty and new): on the first iteration
the tagger call reads the still-unbound `full_content` and raises, and the
handler keeps the base tags; later iterations may add AI tags computed from
the previous article's content. -/
theorem first_post_base_tags_only (aiTagger : String → String → Option (List String))
    (writeBlob : String → String → Option String) (stamp keyword : String)
    (a : Article) (rest : List Article) :
    ((fetch_news_as_posts aiTagger writeBlob stamp keyword (a :: rest)).map
      (fun p => p.tags))[0]? = some (scraperBaseTags keyword) := by
  rw [fetch_news_as_posts, fetchPostsLoop]
  by_cases hsib : should_store_in_blob (fullContentOf a)
  · cases hwb : writeBlob (fullContentOf a)
      ("articles/dbd-" ++ a.slug.getD "unknown" ++ "-" ++ stamp ++ ".txt") with
    | some url => simp [hsib, hwb]
    | none => simp [hsib, hwb]
  · simp [hsib]

end Vincent
